import Mathlib

/-!
Verification development for the agent HTTP server (`src/server.py`).

The Python source is shallowly embedded: each manager's mutable state
becomes a structure, each method a pure function on that state, and the
external collaborators (filesystem `mkdir`/`rmtree`, agent connection
`connect`/`disconnect`) appear as explicit outcome oracles, since the
source only branches on whether those calls raise.  Association lists
stand in for Python `dict`s and plain lists for `set`s.
-/

set_option autoImplicit false

/-- Lookup in an association list keyed by strings, mirroring Python
`d[k]` / `k in d` on a `dict`. -/
def alookup {α : Type} : List (String × α) → String → Option α
  | [], _ => none
  | (k, v) :: rest, i => if k = i then some v else alookup rest i

/-- Removal of a key, mirroring Python `del d[k]` / `d.pop(k)`. -/
def aerase {α : Type} : List (String × α) → String → List (String × α)
  | [], _ => []
  | (k, v) :: rest, i => if k = i then aerase rest i else (k, v) :: aerase rest i

/-- Membership test for the list standing in for a Python `set`. -/
def scontains : List String → String → Bool
  | [], _ => false
  | x :: rest, i => if x = i then true else scontains rest i

/-- Removal from the list standing in for a Python `set`
(`set.discard`). -/
def sdiscard : List String → String → List String
  | [], _ => []
  | x :: rest, i => if x = i then sdiscard rest i else x :: sdiscard rest i

theorem alookup_aerase_self {α : Type} (l : List (String × α)) (i : String) :
    alookup (aerase l i) i = none := by
  induction l with
  | nil => rfl
  | cons p rest ih =>
      obtain ⟨k, v⟩ := p
      by_cases hk : k = i
      · simp [aerase, hk, ih]
      · simp [aerase, alookup, hk, ih]

theorem alookup_aerase_ne {α : Type} (l : List (String × α)) (i j : String)
    (h : j ≠ i) : alookup (aerase l i) j = alookup l j := by
  induction l with
  | nil => rfl
  | cons p rest ih =>
      obtain ⟨k, v⟩ := p
      by_cases hk : k = i
      · subst hk
        simp [aerase, alookup, Ne.symm h, ih]
      · by_cases hkj : k = j
        · subst hkj
          simp [aerase, alookup, hk]
        · simp [aerase, alookup, hk, hkj, ih]

theorem aerase_aerase {α : Type} (l : List (String × α)) (i : String) :
    aerase (aerase l i) i = aerase l i := by
  induction l with
  | nil => rfl
  | cons p rest ih =>
      obtain ⟨k, v⟩ := p
      by_cases hk : k = i
      · simp [aerase, hk, ih]
      · simp [aerase, hk, ih]

theorem scontains_sdiscard_self (l : List String) (i : String) :
    scontains (sdiscard l i) i = false := by
  induction l with
  | nil => rfl
  | cons x rest ih =>
      by_cases hx : x = i
      · simp [sdiscard, hx, ih]
      · simp [sdiscard, scontains, hx, ih]

/-! ## Workspace registry (`WorkspaceManager`, src/server.py lines 119-267)

State: `base_dir` and the ownership map `workspace_owners`.  The
filesystem under the base directory is modelled as the list of directory
names currently present (`fs`).  `mkdir` and `rmtree` can fail for
reasons outside the program; those outcomes enter as Boolean oracles on
the identifier. -/

structure WorkspaceManager where
  base_dir : String
  workspace_owners : List (String × String)
deriving DecidableEq

/-- `str(self.base_dir / identifier)`. -/
def workspace_path_of (wm : WorkspaceManager) (identifier : String) : String :=
  wm.base_dir ++ "/" ++ identifier

/-- Embedding of `WorkspaceManager.create_workspace` (lines 180-218).
`mkdir(parents=True, exist_ok=False)` raises `FileExistsError` when the
directory is present — the code then records ownership anyway and
returns the path; any other `mkdir` failure (oracle `mkdir_fails`)
propagates without recording ownership.  Returns the new manager state,
the new filesystem contents, and the reported path. -/
def create_workspace (mkdir_fails : String → Bool) (wm : WorkspaceManager)
    (fs : List String) (identifier owner_type : String) :
    Except String (WorkspaceManager × List String × String) :=
  if scontains fs identifier then
    Except.ok
      ({ wm with workspace_owners :=
          (identifier, owner_type) :: aerase wm.workspace_owners identifier },
        fs, workspace_path_of wm identifier)
  else if mkdir_fails identifier then
    Except.error ("Failed to create workspace " ++ workspace_path_of wm identifier)
  else
    Except.ok
      ({ wm with workspace_owners :=
          (identifier, owner_type) :: aerase wm.workspace_owners identifier },
        identifier :: fs, workspace_path_of wm identifier)

/-- Embedding of `WorkspaceManager.cleanup_workspace` (lines 220-254).
Untracked identifier: return `false` with no change.  Tracked: remove
tracking, then (outside the lock) delete the directory; the call returns
`true` only when the directory existed and `rmtree` (oracle `rmtree_ok`)
succeeded, `false` when the directory was absent or the delete raised. -/
def cleanup_workspace (rmtree_ok : String → Bool) (wm : WorkspaceManager)
    (fs : List String) (identifier : String) :
    WorkspaceManager × List String × Bool :=
  match alookup wm.workspace_owners identifier with
  | none => (wm, fs, false)
  | some _ =>
      let wm1 : WorkspaceManager :=
        { wm with workspace_owners := aerase wm.workspace_owners identifier }
      if scontains fs identifier then
        if rmtree_ok identifier then (wm1, sdiscard fs identifier, true)
        else (wm1, fs, false)
      else (wm1, fs, false)

/-- One directory entry under the base directory, as seen by the orphan
sweep: its name, whether it is a directory, and its mtime in seconds. -/
structure DirEntry where
  name : String
  is_dir : Bool
  mtime : Nat
deriving DecidableEq

/-- `24 * 3600`, the sweep threshold of `_cleanup_orphaned_workspaces`. -/
def max_age_seconds : Nat := 24 * 3600

/-- Embedding of `WorkspaceManager._cleanup_orphaned_workspaces`
(lines 146-178).  Iterates the entries under the base directory: a
non-directory is skipped; a directory whose age `current_time - mtime`
exceeds the threshold gets an `rmtree` attempt (recorded in the second
component); a failed attempt (oracle `rmtree_ok` false) is logged and
the loop continues.  Returns the surviving entries and the list of
attempted removals, in iteration order. -/
def cleanup_orphaned (current_time : Nat) (rmtree_ok : String → Bool) :
    List DirEntry → List DirEntry × List String
  | [] => ([], [])
  | e :: rest =>
      let r := cleanup_orphaned current_time rmtree_ok rest
      if e.is_dir = false then (e :: r.1, r.2)
      else if max_age_seconds < current_time - e.mtime then
        if rmtree_ok e.name then (r.1, e.name :: r.2)
        else (e :: r.1, e.name :: r.2)
      else (e :: r.1, r.2)

/-! ## Session registry (`SessionManager`, src/server.py lines 319-399)

State: the three containers `sessions` (id → connection handle),
`session_workspaces` (id → workspace path) and `created_workspaces`
(ids whose workspace the registry created).  Connection handles are
opaque (`Nat`); the outcomes of the external `connect`/`disconnect`
calls enter as Boolean parameters/oracles. -/

structure SessionManager where
  sessions : List (String × Nat)
  session_workspaces : List (String × String)
  created_workspaces : List String
deriving DecidableEq

/-- Embedding of `SessionManager.create_session` (lines 328-358) for an
explicitly supplied `session_id`.  Under the lock it first checks for a
duplicate identifier (raising before any mutation), then constructs the
client (`client` is the fresh handle) and connects it (`connect_ok` is
the outcome of `await client.connect()`; a raise leaves the state
untouched), then inserts the handle and — only when a workspace path was
supplied — records the workspace bookkeeping.  The state component of
the result is the registry state when the call returns or raises. -/
def create_session (sm : SessionManager) (session_id : String)
    (connect_ok : Bool) (workspace_path : Option String) (client : Nat) :
    SessionManager × Except String String :=
  if (alookup sm.sessions session_id).isSome then
    (sm, Except.error ("Session " ++ session_id ++ " already exists"))
  else if connect_ok = false then
    (sm, Except.error "connection failed")
  else
    let sm1 : SessionManager :=
      { sm with sessions := (session_id, client) :: sm.sessions }
    match workspace_path with
    | some wp =>
        ({ sm1 with
            session_workspaces := (session_id, wp) :: sm1.session_workspaces,
            created_workspaces := session_id :: sm1.created_workspaces },
          Except.ok session_id)
    | none => (sm1, Except.ok session_id)

/-- Result of `close_session`: the registry state, the identifiers
passed to `workspace_manager.cleanup_workspace` (after the lock is
released), and whether the call raised (a failing `disconnect` is not
caught there). -/
structure CloseSessionResult where
  state : SessionManager
  cleanup_calls : List String
  errored : Bool
deriving DecidableEq

/-- Embedding of `SessionManager.close_session` (lines 367-384).  Absent
identifier: no-op.  Present: pop the handle, disconnect it
(`disconnect_ok` gives the outcome; a raise propagates with the entry
already popped and no cleanup performed), then, if the workspace was
registry-created, clear the bookkeeping inside the lock and call the
workspace cleanup once outside the lock. -/
def close_session (disconnect_ok : Nat → Bool) (sm : SessionManager)
    (session_id : String) : CloseSessionResult :=
  match alookup sm.sessions session_id with
  | none => ⟨sm, [], false⟩
  | some c =>
      let sessions1 := aerase sm.sessions session_id
      if disconnect_ok c then
        if scontains sm.created_workspaces session_id then
          ⟨{ sessions := sessions1,
             session_workspaces := aerase sm.session_workspaces session_id,
             created_workspaces := sdiscard sm.created_workspaces session_id },
            [session_id], false⟩
        else ⟨{ sm with sessions := sessions1 }, [], false⟩
      else ⟨{ sm with sessions := sessions1 }, [], true⟩

/-- The disconnect loop of `close_all` (lines 388-393): every tracked
connection is disconnected in iteration order; the `try/except: pass`
swallows an individual failure, so the list of disconnect calls and the
continuation of the loop do not depend on the `disconnect_ok` oracle. -/
def disconnect_all (disconnect_ok : Nat → Bool) :
    List (String × Nat) → List Nat
  | [] => []
  | (_, c) :: rest => c :: disconnect_all disconnect_ok rest

/-- Embedding of `SessionManager.close_all` (lines 386-399): disconnect
every tracked connection (failures swallowed), then clear all three
containers.  Returns the final state and the disconnect calls made. -/
def close_all (disconnect_ok : Nat → Bool) (sm : SessionManager) :
    SessionManager × List Nat :=
  (⟨[], [], []⟩, disconnect_all disconnect_ok sm.sessions)

/-! ## Response events and the streaming drive
(src/server.py lines 696-722, 783-814, 926-946, 964-987)

The agent connection's `receive_response()` yields messages; the
handlers branch on `isinstance` against `AssistantMessage` (holding a
list of content blocks), `ResultMessage`, and fall through on anything
else.  A drive of the sequence is a list of messages successfully
consumed, plus an optional error: `some e` means the next step of the
iteration (or the surrounding `query`/`async with` machinery) raised
with `str(exc) = e` after those messages were consumed. -/

structure ResultData where
  result : Option String
  session_id : String
  is_error : Bool
  structured_output : Option String
  subtype : Option String
deriving DecidableEq

inductive Block where
  | text_block (text : String)
  | tool_use_block (name : String) (input : String)
  | tool_result_block (tool_use_id : String)
  | other_block
deriving DecidableEq

inductive Message where
  | assistant (content : List Block)
  | result_msg (data : ResultData)
  | other_msg
deriving DecidableEq

/-- One unit of the outward SSE wire protocol, before JSON encoding. -/
inductive Frame where
  | text (t : String)
  | tool_use_frame (name : String) (input : String)
  | tool_use_name_frame (name : String)
  | tool_result_frame (tool_use_id : String)
  | result_frame (data : ResultData)
  | done_frame (session_id : String) (structured_output : Option String)
      (subtype : Option String)
  | error_frame (e : String)
  | done_sentinel
deriving DecidableEq

/-- Frames emitted for one content block by `stream_query.generate`
(lines 790-797). -/
def block_frames : Block → List Frame
  | Block.text_block t => [Frame.text t]
  | Block.tool_use_block n i => [Frame.tool_use_frame n i]
  | Block.tool_result_block id => [Frame.tool_result_frame id]
  | Block.other_block => []

/-- Frames emitted for one message by `stream_query.generate`
(lines 789-808). -/
def message_frames : Message → List Frame
  | Message.assistant bs => bs.flatMap block_frames
  | Message.result_msg d => [Frame.result_frame d]
  | Message.other_msg => []

/-- Embedding of the body of `stream_query.generate` (lines 783-811,
cleanup aside): the frames of each consumed message in order, then
either the `[DONE]` sentinel (no error — line 809, inside the `try`) or
the single error frame from the `except` clause (line 811). -/
def stream_generate (events : List Message) (err : Option String) :
    List Frame :=
  match err with
  | none => events.flatMap message_frames ++ [Frame.done_sentinel]
  | some e => events.flatMap message_frames ++ [Frame.error_frame e]

/-- Frames emitted for one content block by `chat_stream.generate`
(lines 970-975): text and tool-use (name only); tool-result blocks are
not handled there. -/
def chat_block_frames : Block → List Frame
  | Block.text_block t => [Frame.text t]
  | Block.tool_use_block n _ => [Frame.tool_use_name_frame n]
  | Block.tool_result_block _ => []
  | Block.other_block => []

/-- Frames emitted for one message by `chat_stream.generate`
(lines 969-983); a `ResultMessage` yields a `done`-typed data frame
carrying the path session id. -/
def chat_message_frames (session_id : String) : Message → List Frame
  | Message.assistant bs => bs.flatMap chat_block_frames
  | Message.result_msg d =>
      [Frame.done_frame session_id d.structured_output d.subtype]
  | Message.other_msg => []

/-- Embedding of the body of `chat_stream.generate` (lines 964-987),
same error shape as `stream_generate`. -/
def chat_stream_generate (session_id : String) (events : List Message)
    (err : Option String) : List Frame :=
  match err with
  | none => events.flatMap (chat_message_frames session_id) ++ [Frame.done_sentinel]
  | some e => events.flatMap (chat_message_frames session_id) ++ [Frame.error_frame e]

def is_error_frame : Frame → Bool
  | Frame.error_frame _ => true
  | _ => false

def is_done_sentinel : Frame → Bool
  | Frame.done_sentinel => true
  | _ => false

/-! ### The non-streaming drives -/

/-- The body of the inner block loop of `single_query` (lines 710-712):
a `TextBlock` overwrites `result_text`; any other block leaves it. -/
def single_query_text_step (a : Option String) (b : Block) : Option String :=
  match b with
  | Block.text_block t => some t
  | _ => a

/-- The inner block loop of `single_query` (lines 708-712). -/
def single_query_blocks (acc : Option String) (bs : List Block) :
    Option String :=
  bs.foldl single_query_text_step acc

/-- The message loop of `single_query` (lines 699-712): a
`ResultMessage` sets `result_text := message.result`; an
`AssistantMessage` runs the block loop; other messages are ignored. -/
def single_query_result : List Message → Option String → Option String
  | [], acc => acc
  | Message.result_msg d :: rest, _ => single_query_result rest d.result
  | Message.assistant bs :: rest, acc =>
      single_query_result rest (single_query_blocks acc bs)
  | Message.other_msg :: rest, acc => single_query_result rest acc

/-- The result text `single_query` reports for a drive
(`result_text` starts at `None`, line 688). -/
def single_query_result_of (events : List Message) : Option String :=
  single_query_result events none

/-- The body of the inner block loop of `chat` (lines 935-937): a
`TextBlock`'s text is appended to `response_text`; any other block
leaves it. -/
def chat_text_step (a : String) (b : Block) : String :=
  match b with
  | Block.text_block t => a ++ t
  | _ => a

/-- The message loop of `chat` (lines 933-940): each `TextBlock`'s text
is appended to `response_text`; `ResultMessage` only records
`structured_output`/`subtype` and leaves the text alone. -/
def chat_response : List Message → String → String
  | [], acc => acc
  | Message.assistant bs :: rest, acc =>
      chat_response rest (bs.foldl chat_text_step acc)
  | Message.result_msg _ :: rest, acc => chat_response rest acc
  | Message.other_msg :: rest, acc => chat_response rest acc

/-- The response text `chat` reports for a drive
(`response_text` starts at `""`, line 929). -/
def chat_response_of (events : List Message) : String :=
  chat_response events ""

/-- The text of a block, when it is a `TextBlock`. -/
def block_text : Block → Option String
  | Block.text_block t => some t
  | _ => none

/-- The texts of the `TextBlock`s of one message, in order. -/
def message_texts : Message → List String
  | Message.assistant bs => bs.filterMap block_text
  | _ => []

/-- All `TextBlock` texts of a drive, in arrival order. -/
def all_texts (events : List Message) : List String :=
  events.flatMap message_texts

/-- Concatenation of a list of strings, left to right. -/
def concat_strings : List String → String
  | [] => ""
  | t :: rest => t ++ concat_strings rest

/-- The last element of a list of strings, if any. -/
def last_opt : List String → Option String
  | [] => none
  | t :: rest => Option.or (last_opt rest) (some t)

def is_result_msg : Message → Bool
  | Message.result_msg _ => true
  | _ => false

/-! ### The streaming runner and its cleanup hook

`StreamingResponse` consumes `generate()` like any async generator: the
consumer takes frames one by one and either exhausts the stream or
aborts early (client disconnect), upon which the generator is closed at
its current suspension point.  In both cases Python runs the `finally`
clause of `generate` exactly once; the embedding records that execution
as a trace item appended after the consumed frames. -/

inductive TraceItem where
  | frame_item (f : Frame)
  | cleanup_item (workspace_id : String)
deriving DecidableEq

def is_cleanup_item : TraceItem → Bool
  | TraceItem.cleanup_item _ => true
  | _ => false

/-- The frames the consumer actually receives: all of them, or — when it
disconnects after `n` frames — the first `n`. -/
def consumed_frames (frames : List Frame) (abort_after : Option Nat) :
    List Frame :=
  match abort_after with
  | none => frames
  | some n => frames.take n

/-- Full trace of one `/query/stream` drive (lines 783-814): the frames
delivered before exhaustion or abort, then the one execution of the
`finally` clause, which calls
`workspace_manager.cleanup_workspace(workspace_id)`. -/
def run_stream_query (workspace_id : String) (events : List Message)
    (err : Option String) (abort_after : Option Nat) : List TraceItem :=
  (consumed_frames (stream_generate events err) abort_after).map
      TraceItem.frame_item
    ++ [TraceItem.cleanup_item workspace_id]

/-! ## Helper lemmas -/

theorem or_some_left {α : Type} (a : α) (x : Option α) :
    Option.or (some a) x = some a := rfl

theorem concat_strings_append (l1 l2 : List String) :
    concat_strings (l1 ++ l2) = concat_strings l1 ++ concat_strings l2 := by
  induction l1 with
  | nil => simp [concat_strings, String.empty_append]
  | cons t rest ih => simp [concat_strings, ih, String.append_assoc]

theorem last_opt_append (l1 l2 : List String) :
    last_opt (l1 ++ l2) = Option.or (last_opt l2) (last_opt l1) := by
  induction l1 with
  | nil => simp [last_opt, Option.or_none]
  | cons t rest ih => simp [last_opt, ih, Option.or_assoc]

theorem block_frames_benign (b : Block) (f : Frame)
    (hf : f ∈ block_frames b) :
    is_error_frame f = false ∧ is_done_sentinel f = false := by
  cases b <;> simp [block_frames] at hf <;>
    simp [hf, is_error_frame, is_done_sentinel]

theorem message_frames_benign (m : Message) (f : Frame)
    (hf : f ∈ message_frames m) :
    is_error_frame f = false ∧ is_done_sentinel f = false := by
  cases m with
  | assistant bs =>
      simp only [message_frames, List.mem_flatMap] at hf
      obtain ⟨b, _, hfb⟩ := hf
      exact block_frames_benign b f hfb
  | result_msg d =>
      simp [message_frames] at hf
      simp [hf, is_error_frame, is_done_sentinel]
  | other_msg => simp [message_frames] at hf

theorem flat_message_frames_benign (events : List Message) (f : Frame)
    (hf : f ∈ events.flatMap message_frames) :
    is_error_frame f = false ∧ is_done_sentinel f = false := by
  simp only [List.mem_flatMap] at hf
  obtain ⟨m, _, hfm⟩ := hf
  exact message_frames_benign m f hfm

theorem chat_block_frames_benign (b : Block) (f : Frame)
    (hf : f ∈ chat_block_frames b) :
    is_error_frame f = false ∧ is_done_sentinel f = false := by
  cases b <;> simp [chat_block_frames] at hf <;>
    simp [hf, is_error_frame, is_done_sentinel]

theorem chat_message_frames_benign (sid : String) (m : Message) (f : Frame)
    (hf : f ∈ chat_message_frames sid m) :
    is_error_frame f = false ∧ is_done_sentinel f = false := by
  cases m with
  | assistant bs =>
      simp only [chat_message_frames, List.mem_flatMap] at hf
      obtain ⟨b, _, hfb⟩ := hf
      exact chat_block_frames_benign b f hfb
  | result_msg d =>
      simp [chat_message_frames] at hf
      simp [hf, is_error_frame, is_done_sentinel]
  | other_msg => simp [chat_message_frames] at hf

theorem flat_chat_frames_benign (sid : String) (events : List Message)
    (f : Frame) (hf : f ∈ events.flatMap (chat_message_frames sid)) :
    is_error_frame f = false ∧ is_done_sentinel f = false := by
  simp only [List.mem_flatMap] at hf
  obtain ⟨m, _, hfm⟩ := hf
  exact chat_message_frames_benign sid m f hfm

theorem filter_error_flat (events : List Message) :
    (events.flatMap message_frames).filter is_error_frame = [] := by
  rw [List.filter_eq_nil_iff]
  intro f hf
  simp [(flat_message_frames_benign events f hf).1]

theorem filter_error_flat_chat (sid : String) (events : List Message) :
    (events.flatMap (chat_message_frames sid)).filter is_error_frame = [] := by
  rw [List.filter_eq_nil_iff]
  intro f hf
  simp [(flat_chat_frames_benign sid events f hf).1]

theorem frame_items_no_cleanup (fs : List Frame) :
    (fs.map TraceItem.frame_item).filter is_cleanup_item = [] := by
  induction fs with
  | nil => rfl
  | cons f rest ih => simp [is_cleanup_item, ih]

theorem chat_blocks_concat (bs : List Block) (acc : String) :
    bs.foldl chat_text_step acc
      = acc ++ concat_strings (bs.filterMap block_text) := by
  induction bs generalizing acc with
  | nil => simp [concat_strings, String.append_empty]
  | cons b rest ih =>
      cases b with
      | text_block t =>
          simp [chat_text_step, block_text, ih, concat_strings,
            String.append_assoc]
      | tool_use_block n i => simp [chat_text_step, block_text, ih]
      | tool_result_block id => simp [chat_text_step, block_text, ih]
      | other_block => simp [chat_text_step, block_text, ih]

theorem chat_response_concat (events : List Message) (acc : String) :
    chat_response events acc = acc ++ concat_strings (all_texts events) := by
  induction events generalizing acc with
  | nil => simp [chat_response, all_texts, concat_strings, String.append_empty]
  | cons m rest ih =>
      cases m with
      | assistant bs =>
          rw [chat_response, chat_blocks_concat, ih]
          simp [all_texts, message_texts, concat_strings_append,
            String.append_assoc]
      | result_msg d =>
          rw [chat_response, ih]
          simp [all_texts, message_texts, concat_strings]
      | other_msg =>
          rw [chat_response, ih]
          simp [all_texts, message_texts, concat_strings]

theorem single_query_blocks_last (bs : List Block) (acc : Option String) :
    single_query_blocks acc bs
      = Option.or (last_opt (bs.filterMap block_text)) acc := by
  induction bs generalizing acc with
  | nil => simp [single_query_blocks, last_opt, Option.none_or]
  | cons b rest ih =>
      cases b with
      | text_block t =>
          simp only [single_query_blocks, List.foldl_cons] at ih ⊢
          rw [show single_query_text_step acc (Block.text_block t)
                = some t from rfl,
            ih]
          simp [block_text, last_opt, Option.or_assoc, or_some_left]
      | tool_use_block n i =>
          simp only [single_query_blocks, List.foldl_cons] at ih ⊢
          rw [show single_query_text_step acc (Block.tool_use_block n i)
                = acc from rfl,
            ih]
          simp [block_text]
      | tool_result_block id =>
          simp only [single_query_blocks, List.foldl_cons] at ih ⊢
          rw [show single_query_text_step acc (Block.tool_result_block id)
                = acc from rfl,
            ih]
          simp [block_text]
      | other_block =>
          simp only [single_query_blocks, List.foldl_cons] at ih ⊢
          rw [show single_query_text_step acc Block.other_block
                = acc from rfl,
            ih]
          simp [block_text]

theorem single_query_no_result_last (events : List Message)
    (acc : Option String) (h : ∀ m ∈ events, is_result_msg m = false) :
    single_query_result events acc
      = Option.or (last_opt (all_texts events)) acc := by
  induction events generalizing acc with
  | nil => simp [single_query_result, all_texts, last_opt, Option.none_or]
  | cons m rest ih =>
      have hrest : ∀ m' ∈ rest, is_result_msg m' = false :=
        fun m' hm' => h m' (List.mem_cons_of_mem _ hm')
      cases m with
      | result_msg d =>
          have hm := h (Message.result_msg d) (List.mem_cons_self _ _)
          simp [is_result_msg] at hm
      | assistant bs =>
          rw [single_query_result, ih (single_query_blocks acc bs) hrest,
            single_query_blocks_last]
          simp [all_texts, message_texts, last_opt_append, Option.or_assoc]
      | other_msg =>
          rw [single_query_result, ih acc hrest]
          simp [all_texts, message_texts, last_opt]

theorem disconnect_all_eq_map (disconnect_ok : Nat → Bool)
    (l : List (String × Nat)) :
    disconnect_all disconnect_ok l = l.map Prod.snd := by
  induction l with
  | nil => rfl
  | cons p rest ih =>
      obtain ⟨k, c⟩ := p
      simp [disconnect_all, ih]

/-! ## Claim theorems -/

/-- C1 counterexample: drive the streaming generator over a sequence
that raises after emitting `AssistantText("a")`.  The wire stream is the
`a` frame followed by the error frame only — contrary to the claim, the
`[DONE]` sentinel does not appear after an error. -/
theorem C1_counterexample :
    stream_generate [Message.assistant [Block.text_block "a"]] (some "boom")
      = [Frame.text "a", Frame.error_frame "boom"] ∧
    Frame.done_sentinel ∉
      stream_generate [Message.assistant [Block.text_block "a"]] (some "boom") := by
  decide

/-- C1 (amended): when an error is raised while driving the event
sequence, both streaming generators emit the frames produced so far and
then exactly one error frame carrying the error's string description,
and the stream terminates there — the `[DONE]` sentinel is not emitted
on the error path (it is yielded inside the `try`, only on error-free
completion). -/
theorem C1_error_stream_frames (events : List Message) (e sid : String) :
    stream_generate events (some e)
      = events.flatMap message_frames ++ [Frame.error_frame e] ∧
    (stream_generate events (some e)).filter is_error_frame
      = [Frame.error_frame e] ∧
    Frame.done_sentinel ∉ stream_generate events (some e) ∧
    chat_stream_generate sid events (some e)
      = events.flatMap (chat_message_frames sid) ++ [Frame.error_frame e] ∧
    (chat_stream_generate sid events (some e)).filter is_error_frame
      = [Frame.error_frame e] ∧
    Frame.done_sentinel ∉ chat_stream_generate sid events (some e) := by
  refine ⟨rfl, ?_, ?_, rfl, ?_, ?_⟩
  · simp [stream_generate, List.filter_append, filter_error_flat,
      is_error_frame]
  · intro hmem
    simp only [stream_generate] at hmem
    rcases List.mem_append.mp hmem with h1 | h2
    · have hb := (flat_message_frames_benign events _ h1).2
      simp [is_done_sentinel] at hb
    · simp at h2
  · simp [chat_stream_generate, List.filter_append, filter_error_flat_chat,
      is_error_frame]
  · intro hmem
    simp only [chat_stream_generate] at hmem
    rcases List.mem_append.mp hmem with h1 | h2
    · have hb := (flat_chat_frames_benign sid events _ h1).2
      simp [is_done_sentinel] at hb
    · simp at h2

/-- C2 counterexample: the identifier `w` is tracked, but its directory
is absent from the filesystem; `cleanup_workspace` returns `false` even
though tracking was removed — contrary to the claim that the return
value is `true` for every tracked identifier. -/
theorem C2_counterexample :
    (alookup (WorkspaceManager.mk "base" [("w", "query")]).workspace_owners
        "w").isSome = true ∧
    (cleanup_workspace (fun _ => true)
        (WorkspaceManager.mk "base" [("w", "query")]) [] "w").2.2 = false ∧
    alookup (cleanup_workspace (fun _ => true)
        (WorkspaceManager.mk "base" [("w", "query")]) [] "w").1.workspace_owners
        "w" = none := by
  decide

/-- C2 (amended): for every tracked identifier, `cleanup_workspace`
removes tracking unconditionally, but the return value is `true` exactly
when the directory existed and the filesystem deletion succeeded; it is
`false` when the directory is absent or the delete raises, even though
tracking was removed. -/
theorem C2_cleanup_return_value (rmtree_ok : String → Bool)
    (wm : WorkspaceManager) (fs : List String) (i : String)
    (h : (alookup wm.workspace_owners i).isSome = true) :
    alookup (cleanup_workspace rmtree_ok wm fs i).1.workspace_owners i
      = none ∧
    ((cleanup_workspace rmtree_ok wm fs i).2.2 = true
      ↔ (scontains fs i = true ∧ rmtree_ok i = true)) := by
  obtain ⟨v, hv⟩ := Option.isSome_iff_exists.mp h
  cases hc : scontains fs i with
  | false => simp [cleanup_workspace, hv, hc, alookup_aerase_self]
  | true =>
      cases hr : rmtree_ok i with
      | false => simp [cleanup_workspace, hv, hc, hr, alookup_aerase_self]
      | true => simp [cleanup_workspace, hv, hc, hr, alookup_aerase_self]

theorem C2_cleanup_return_value_witness :
    alookup (cleanup_workspace (fun _ => true)
        (WorkspaceManager.mk "base" [("w", "query")]) ["w"]
        "w").1.workspace_owners "w" = none ∧
    ((cleanup_workspace (fun _ => true)
        (WorkspaceManager.mk "base" [("w", "query")]) ["w"] "w").2.2 = true
      ↔ (scontains ["w"] "w" = true ∧ (fun _ : String => true) "w" = true)) :=
  C2_cleanup_return_value (fun _ => true)
    (WorkspaceManager.mk "base" [("w", "query")]) ["w"] "w" (by decide)

/-- C3 counterexample: the drive
`[AssistantText("a"), AssistantText("b")]` ends without a `Result`
event.  The one-shot query endpoint reports `b` — the last seen text,
not the concatenation `ab` the claim requires; the session chat endpoint
reports the concatenation `ab`, not the claimed last-seen fallback `b`.
Either way the claim's conjunction of "concatenated result string" and
"last seen text reported" fails on this input. -/
theorem C3_counterexample :
    single_query_result_of
        [Message.assistant [Block.text_block "a"],
          Message.assistant [Block.text_block "b"]] = some "b" ∧
    some "b" ≠ some ("a" ++ "b") ∧
    chat_response_of
        [Message.assistant [Block.text_block "a"],
          Message.assistant [Block.text_block "b"]] = "a" ++ "b" ∧
    ("a" ++ "b" : String) ≠ "b" := by
  decide

/-- C3 (amended): in non-streaming mode tool events produce no output.
The session chat endpoint returns the concatenation of all
`AssistantText` texts (regardless of `Result` events, which only supply
metadata there).  The one-shot query endpoint keeps only the most recent
`AssistantText` text: when the sequence ends without ever producing a
`Result` event, the last seen `AssistantText` text is the reported
result. -/
theorem C3_nonstreaming_result (events : List Message) :
    chat_response_of events = concat_strings (all_texts events) ∧
    ((∀ m ∈ events, is_result_msg m = false) →
      single_query_result_of events = last_opt (all_texts events)) := by
  constructor
  · rw [chat_response_of, chat_response_concat, String.empty_append]
  · intro h
    rw [single_query_result_of, single_query_no_result_last events none h,
      Option.or_none]

theorem C3_nonstreaming_result_witness :
    chat_response_of
        [Message.assistant [Block.text_block "a", Block.other_block],
          Message.assistant [Block.text_block "b"]]
      = concat_strings (all_texts
          [Message.assistant [Block.text_block "a", Block.other_block],
            Message.assistant [Block.text_block "b"]]) ∧
    single_query_result_of
        [Message.assistant [Block.text_block "a", Block.other_block],
          Message.assistant [Block.text_block "b"]]
      = last_opt (all_texts
          [Message.assistant [Block.text_block "a", Block.other_block],
            Message.assistant [Block.text_block "b"]]) :=
  ⟨(C3_nonstreaming_result
      [Message.assistant [Block.text_block "a", Block.other_block],
        Message.assistant [Block.text_block "b"]]).1,
    (C3_nonstreaming_result
      [Message.assistant [Block.text_block "a", Block.other_block],
        Message.assistant [Block.text_block "b"]]).2 (by decide)⟩

/-- C4: if `create_workspace i k` succeeds (whether it made the
directory or found it already present), calling it again immediately
also succeeds: the second call is not an error, leaves the state as it
was after the first call, records ownership of `i`, and both calls
return the same path `base_dir/i`. -/
theorem C4_create_workspace_idempotent (mkdir_fails : String → Bool)
    (wm : WorkspaceManager) (fs : List String) (i k : String)
    (wm1 : WorkspaceManager) (fs1 : List String) (p1 : String)
    (h : create_workspace mkdir_fails wm fs i k = Except.ok (wm1, fs1, p1)) :
    p1 = workspace_path_of wm i ∧
    create_workspace mkdir_fails wm1 fs1 i k
      = Except.ok (wm1, fs1, workspace_path_of wm i) ∧
    alookup wm1.workspace_owners i = some k := by
  cases hc : scontains fs i with
  | true =>
      simp only [create_workspace, hc, if_true, Except.ok.injEq,
        Prod.mk.injEq] at h
      obtain ⟨hwm, hfs, hp⟩ := h
      subst hwm
      subst hfs
      subst hp
      refine ⟨rfl, ?_, by simp [alookup]⟩
      simp [create_workspace, hc, workspace_path_of, aerase, aerase_aerase]
  | false =>
      cases hm : mkdir_fails i with
      | true => simp [create_workspace, hc, hm] at h
      | false =>
          simp only [create_workspace, hc, hm, Bool.false_eq_true, if_false,
            Except.ok.injEq, Prod.mk.injEq] at h
          obtain ⟨hwm, hfs, hp⟩ := h
          subst hwm
          subst hfs
          subst hp
          refine ⟨rfl, ?_, by simp [alookup]⟩
          simp [create_workspace, scontains, workspace_path_of, aerase,
            aerase_aerase]

theorem C4_create_workspace_idempotent_witness :
    "base/w" = workspace_path_of (WorkspaceManager.mk "base" []) "w" ∧
    create_workspace (fun _ => false)
        (WorkspaceManager.mk "base" [("w", "query")]) ["w"] "w" "query"
      = Except.ok (WorkspaceManager.mk "base" [("w", "query")], ["w"],
          workspace_path_of (WorkspaceManager.mk "base" []) "w") ∧
    alookup (WorkspaceManager.mk "base" [("w", "query")]).workspace_owners "w"
      = some "query" :=
  C4_create_workspace_idempotent (fun _ => false)
    (WorkspaceManager.mk "base" []) [] "w" "query"
    (WorkspaceManager.mk "base" [("w", "query")]) ["w"] "base/w" rfl

/-- C5: when the identifier `x` is already present in the session map,
a second `create_session` with the same identifier fails with the
duplicate-session error, and the failing call leaves the whole registry
state — the first session's map entry and connection handle, the
workspace-path map and the registry-created set — unchanged. -/
theorem C5_duplicate_session_rejected (sm : SessionManager) (x : String)
    (c : Nat) (connect_ok : Bool) (workspace_path : Option String)
    (client : Nat) (h : alookup sm.sessions x = some c) :
    (create_session sm x connect_ok workspace_path client).1 = sm ∧
    (create_session sm x connect_ok workspace_path client).2
      = Except.error ("Session " ++ x ++ " already exists") ∧
    alookup (create_session sm x connect_ok workspace_path client).1.sessions
        x = some c ∧
    (create_session sm x connect_ok workspace_path client).1.session_workspaces
      = sm.session_workspaces ∧
    (create_session sm x connect_ok workspace_path client).1.created_workspaces
      = sm.created_workspaces := by
  simp [create_session, h]

theorem C5_duplicate_session_rejected_witness :
    (create_session (SessionManager.mk [("x", 5)] [] []) "x" true none 7).1
      = SessionManager.mk [("x", 5)] [] [] ∧
    (create_session (SessionManager.mk [("x", 5)] [] []) "x" true none 7).2
      = Except.error ("Session " ++ "x" ++ " already exists") ∧
    alookup (create_session (SessionManager.mk [("x", 5)] [] [])
        "x" true none 7).1.sessions "x" = some 5 ∧
    (create_session (SessionManager.mk [("x", 5)] [] [])
        "x" true none 7).1.session_workspaces
      = (SessionManager.mk [("x", 5)] [] []).session_workspaces ∧
    (create_session (SessionManager.mk [("x", 5)] [] [])
        "x" true none 7).1.created_workspaces
      = (SessionManager.mk [("x", 5)] [] []).created_workspaces :=
  C5_duplicate_session_rejected (SessionManager.mk [("x", 5)] [] [])
    "x" 5 true none 7 rfl

/-- C6: the orphan sweep over the entries under the base directory
keeps exactly the entries that are not directories, or are at most the
24-hour threshold old, or whose removal failed; and it attempts a
removal for exactly the directories strictly older than the threshold —
in iteration order, independently of the ownership tracking (which the
sweep never consults) and of removal failures on other entries. -/
theorem C6_orphan_sweep (current_time : Nat) (rmtree_ok : String → Bool)
    (entries : List DirEntry) :
    cleanup_orphaned current_time rmtree_ok entries
      = (entries.filter (fun e => !e.is_dir
            || !(decide (max_age_seconds < current_time - e.mtime))
            || !(rmtree_ok e.name)),
          (entries.filter (fun e => e.is_dir
            && decide (max_age_seconds < current_time - e.mtime))).map
            DirEntry.name) := by
  induction entries with
  | nil => rfl
  | cons e rest ih =>
      cases hd : e.is_dir with
      | false => simp [cleanup_orphaned, hd, ih]
      | true =>
          by_cases hold : max_age_seconds < current_time - e.mtime
          · cases hok : rmtree_ok e.name with
            | true => simp [cleanup_orphaned, hd, hold, hok, ih]
            | false => simp [cleanup_orphaned, hd, hold, hok, ih]
          · simp [cleanup_orphaned, hd, hold, ih]

/-- C7: after creating a session with identifier `i` (a fresh
identifier, connect succeeding), closing it triggers exactly one
workspace deletion when the registry created the workspace (a workspace
path was recorded at creation), and zero workspace deletions when the
session used a caller-supplied working directory (no workspace path
recorded); in both cases the close itself does not raise, given the
disconnect succeeds. -/
theorem C7_close_session_workspace_deletions (disconnect_ok : Nat → Bool)
    (sm : SessionManager) (i : String) (workspace_path : Option String)
    (client : Nat)
    (hfresh : alookup sm.sessions i = none)
    (hnotmine : scontains sm.created_workspaces i = false)
    (hdis : disconnect_ok client = true) :
    (close_session disconnect_ok
        (create_session sm i true workspace_path client).1 i).cleanup_calls
      = (match workspace_path with | some _ => [i] | none => []) ∧
    (close_session disconnect_ok
        (create_session sm i true workspace_path client).1 i).errored
      = false := by
  cases workspace_path with
  | some wp =>
      simp [create_session, hfresh, close_session, alookup, scontains, hdis]
  | none =>
      simp [create_session, hfresh, close_session, alookup, scontains, hdis,
        hnotmine]

theorem C7_close_session_workspace_deletions_witness :
    ((close_session (fun _ => true)
        (create_session (SessionManager.mk [] [] []) "s" true (some "p")
          0).1 "s").cleanup_calls = ["s"] ∧
      (close_session (fun _ => true)
        (create_session (SessionManager.mk [] [] []) "s" true (some "p")
          0).1 "s").errored = false) ∧
    ((close_session (fun _ => true)
        (create_session (SessionManager.mk [] [] []) "s" true none
          0).1 "s").cleanup_calls = [] ∧
      (close_session (fun _ => true)
        (create_session (SessionManager.mk [] [] []) "s" true none
          0).1 "s").errored = false) :=
  ⟨C7_close_session_workspace_deletions (fun _ => true)
      (SessionManager.mk [] [] []) "s" (some "p") 0 rfl rfl rfl,
    C7_close_session_workspace_deletions (fun _ => true)
      (SessionManager.mk [] [] []) "s" none 0 rfl rfl rfl⟩

/-- C8: for every streaming drive — error-free or raising, consumed to
exhaustion or aborted by the consumer after any number of frames — the
trace contains exactly one execution of the cleanup hook (the `finally`
clause's workspace teardown), and it comes after the delivered frames,
which are an initial segment of the generated wire stream. -/
theorem C8_stream_cleanup_once (workspace_id : String)
    (events : List Message) (err : Option String)
    (abort_after : Option Nat) :
    (run_stream_query workspace_id events err abort_after).filter
        is_cleanup_item = [TraceItem.cleanup_item workspace_id] ∧
    ∃ delivered rest, stream_generate events err = delivered ++ rest ∧
      run_stream_query workspace_id events err abort_after
        = delivered.map TraceItem.frame_item
          ++ [TraceItem.cleanup_item workspace_id] := by
  constructor
  · simp [run_stream_query, List.filter_append, frame_items_no_cleanup,
      is_cleanup_item]
  · cases abort_after with
    | none =>
        exact ⟨stream_generate events err, [], by simp,
          by simp [run_stream_query, consumed_frames]⟩
    | some n =>
        exact ⟨(stream_generate events err).take n,
          (stream_generate events err).drop n,
          (List.take_append_drop n _).symm,
          by simp [run_stream_query, consumed_frames]⟩

/-- C9: `close_all` leaves the session map, the workspace-path map and
the registry-created set empty, disconnects each tracked session's
connection exactly once (the disconnect-call list is exactly the list of
tracked handles, in order), and swallows individual disconnect failures:
the outcome does not depend on the disconnect oracle at all. -/
theorem C9_close_all_empties (disconnect_ok : Nat → Bool)
    (sm : SessionManager) :
    (close_all disconnect_ok sm).1.sessions = [] ∧
    (close_all disconnect_ok sm).1.session_workspaces = [] ∧
    (close_all disconnect_ok sm).1.created_workspaces = [] ∧
    (close_all disconnect_ok sm).2 = sm.sessions.map Prod.snd ∧
    ∀ g : Nat → Bool, close_all disconnect_ok sm = close_all g sm := by
  refine ⟨rfl, rfl, rfl, disconnect_all_eq_map disconnect_ok sm.sessions, ?_⟩
  intro g
  simp [close_all, disconnect_all_eq_map]

/-- C10: when the agent connection handshake fails during
`create_session` for a fresh identifier, the call raises and the
registry state is unchanged: the identifier is not inserted into the
session map and no workspace-path or registry-created bookkeeping is
recorded for it. -/
theorem C10_connect_failure_atomic (sm : SessionManager) (i : String)
    (workspace_path : Option String) (client : Nat)
    (hfresh : alookup sm.sessions i = none) :
    (create_session sm i false workspace_path client).1 = sm ∧
    (create_session sm i false workspace_path client).2
      = Except.error "connection failed" ∧
    alookup (create_session sm i false workspace_path client).1.sessions i
      = none ∧
    alookup (create_session sm i false workspace_path
        client).1.session_workspaces i
      = alookup sm.session_workspaces i ∧
    scontains (create_session sm i false workspace_path
        client).1.created_workspaces i
      = scontains sm.created_workspaces i := by
  simp [create_session, hfresh]

theorem C10_connect_failure_atomic_witness :
    (create_session (SessionManager.mk [] [] []) "s" false (some "p") 3).1
      = SessionManager.mk [] [] [] ∧
    (create_session (SessionManager.mk [] [] []) "s" false (some "p") 3).2
      = Except.error "connection failed" ∧
    alookup (create_session (SessionManager.mk [] [] [])
        "s" false (some "p") 3).1.sessions "s" = none ∧
    alookup (create_session (SessionManager.mk [] [] [])
        "s" false (some "p") 3).1.session_workspaces "s"
      = alookup (SessionManager.mk [] [] []).session_workspaces "s" ∧
    scontains (create_session (SessionManager.mk [] [] [])
        "s" false (some "p") 3).1.created_workspaces "s"
      = scontains (SessionManager.mk [] [] []).created_workspaces "s" :=
  C10_connect_failure_atomic (SessionManager.mk [] [] []) "s" (some "p") 3
    rfl
